import Mathlib

/-!
Verification of the MCP_Postgres server (src/mcp_server.py, src/main.py,
src/app.py) against its specification.

The Python code is shallowly embedded: Python strings become Lean `String`
(with their character list accessed through `String.data`), the lexical
guards of `run_select` / `run_sql` become boolean functions on character
lists, the global connection pool becomes an explicit `ServerState` threaded
through the operations, and the database itself is an oracle `Db` supplied as
a parameter.  Exceptions become `Except` results, and the side effects that
matter to the claims (creating the pool, acquiring a connection, fetching or
executing a statement) are recorded as an explicit event trace.
-/

namespace MCPPostgres

/-- ASCII lowercasing of one character, modelling Python `str.lower` on the
ASCII text handled by this server: the letters A-Z map to a-z and every other
character is unchanged. -/
def lowerChar (c : Char) : Char :=
  match c with
  | 'A' => 'a' | 'B' => 'b' | 'C' => 'c' | 'D' => 'd' | 'E' => 'e' | 'F' => 'f'
  | 'G' => 'g' | 'H' => 'h' | 'I' => 'i' | 'J' => 'j' | 'K' => 'k' | 'L' => 'l'
  | 'M' => 'm' | 'N' => 'n' | 'O' => 'o' | 'P' => 'p' | 'Q' => 'q' | 'R' => 'r'
  | 'S' => 's' | 'T' => 't' | 'U' => 'u' | 'V' => 'v' | 'W' => 'w' | 'X' => 'x'
  | 'Y' => 'y' | 'Z' => 'z'
  | c => c

/-- Lowercasing of a character list: Python `str.lower`. -/
def pyLower (l : List Char) : List Char := l.map lowerChar

/-- The ASCII whitespace characters removed by Python `str.strip`:
space, tab, newline, carriage return, vertical tab and form feed. -/
def isSpaceChar (c : Char) : Bool :=
  c == ' ' || c == '\t' || c == '\n' || c == '\r' || c == '\x0b' || c == '\x0c'

/-- Python `str.strip`: drop whitespace from both ends of the character
list. -/
def stripList (l : List Char) : List Char :=
  ((l.dropWhile isSpaceChar).reverse.dropWhile isSpaceChar).reverse

/-- Guard of `run_select` (src/mcp_server.py line 73): the test
`"select" in query.strip().lower()` written over character lists. -/
def selectGuard (query : String) : Bool :=
  decide ("select".data <:+: pyLower (stripList query.data))

/-- The list `blocked` of src/mcp_server.py line 87. -/
def blocked : List String := ["drop", "alter", "truncate", "create"]

/-- First guard of `run_sql` (src/mcp_server.py line 89):
`any(x in query.lower() for x in blocked)`. -/
def hasBlockedToken (query : String) : Bool :=
  blocked.any fun t => decide (t.data <:+: pyLower query.data)

/-- Second guard of `run_sql` (src/mcp_server.py line 91):
`query.strip().lower().startswith("select")`. -/
def startsSelectTrimmed (query : String) : Bool :=
  decide ("select".data <+: pyLower (stripList query.data))

/-- Lowercasing does not change whether a character is whitespace. -/
theorem isSpaceChar_lowerChar (c : Char) :
    isSpaceChar (lowerChar c) = isSpaceChar c := by
  unfold lowerChar
  split <;> rfl

/-- A nonempty token none of whose characters satisfy `p` is an infix of
`l.dropWhile p` exactly when it is an infix of `l`. -/
theorem infix_dropWhile_iff {t l : List Char} {p : Char → Bool} (hne : t ≠ [])
    (ht : ∀ c ∈ t, p c = false) : t <:+: l.dropWhile p ↔ t <:+: l := by
  constructor
  · intro h
    exact h.trans (List.dropWhile_suffix p).isInfix
  · intro h
    induction l with
    | nil => simpa using h
    | cons a l ih =>
      rw [List.dropWhile_cons]
      split
      · rename_i hpa
        apply ih
        rcases List.infix_cons_iff.mp h with hpre | hinf
        · exfalso
          match t, hne with
          | c :: t', _ =>
            have hca : c = a := (List.cons_prefix_cons.mp hpre).1
            have := ht c (List.mem_cons_self c t')
            rw [hca, hpa] at this
            exact Bool.true_eq_false.mp this
        · exact hinf
      · exact h

/-- Infixes of a reversed list are the reversed infixes. -/
theorem infix_reverse_iff {t l : List Char} : t <:+: l.reverse ↔ t.reverse <:+: l := by
  constructor
  · intro h
    have := List.reverse_infix.mpr h
    rwa [List.reverse_reverse] at this
  · intro h
    have := List.reverse_infix.mpr h
    rwa [List.reverse_reverse] at this

/-- A nonempty token with no whitespace characters is an infix of the
stripped list exactly when it is an infix of the original list. -/
theorem infix_stripList_iff {t l : List Char} (hne : t ≠ [])
    (ht : ∀ c ∈ t, isSpaceChar c = false) : t <:+: stripList l ↔ t <:+: l := by
  have hne' : t.reverse ≠ [] := by simpa using hne
  have ht' : ∀ c ∈ t.reverse, isSpaceChar c = false := by
    intro c hc
    exact ht c (List.mem_reverse.mp hc)
  unfold stripList
  rw [infix_reverse_iff, infix_dropWhile_iff hne' ht', infix_reverse_iff,
    List.reverse_reverse, infix_dropWhile_iff hne ht]

/-- Stripping commutes with lowercasing: `query.strip().lower()` equals
`query.lower().strip()` on character lists. -/
theorem pyLower_stripList (l : List Char) :
    pyLower (stripList l) = stripList (pyLower l) := by
  have hcomp : (isSpaceChar ∘ lowerChar) = isSpaceChar := by
    funext c
    exact isSpaceChar_lowerChar c
  unfold pyLower stripList
  rw [List.dropWhile_map, hcomp, ← List.map_reverse, List.dropWhile_map, hcomp,
    ← List.map_reverse]

/-- The `run_select` guard accepts a query exactly when its lowercased text
contains "select" as a substring (stripping does not matter, since "select"
holds no whitespace character). -/
theorem selectGuard_iff (query : String) :
    selectGuard query = true ↔ "select".data <:+: pyLower query.data := by
  unfold selectGuard
  rw [decide_eq_true_iff, pyLower_stripList,
    infix_stripList_iff (by decide) (by decide)]

example : selectGuard "  SELECT * from t " = true := by decide
example : selectGuard "update t set x = 1" = false := by decide
example : hasBlockedToken "SELECT * FROM created_at" = true := by decide
example : hasBlockedToken "update t set x = 1" = false := by decide
example : startsSelectTrimmed "  Select 1" = true := by decide
example : startsSelectTrimmed "update select" = false := by decide

/-- Python `str.split()` helper: accumulate the current word (reversed) while
walking the characters, splitting on runs of whitespace and discarding empty
words. -/
def splitWordsAux : List Char → List Char → List (List Char)
  | [], acc => if acc = [] then [] else [acc.reverse]
  | c :: cs, acc =>
    if isSpaceChar c then
      if acc = [] then splitWordsAux cs [] else acc.reverse :: splitWordsAux cs []
    else splitWordsAux cs (c :: acc)

/-- Python `str.split()` with no argument: split on whitespace runs. -/
def splitWords (l : List Char) : List (List Char) := splitWordsAux l []

example : splitWords "UPDATE 1".data = ["UPDATE".data, "1".data] := by decide

/-- A result row: a mapping from column names to values, as produced by
`dict(record)` on an asyncpg record. -/
def Row := List (String × String)

/-- The observable side effects of the operations: creating (or attempting to
create) the connection pool, acquiring a pooled connection, fetching rows for
a query, and executing a mutating statement. -/
inductive Ev
  | poolCreate
  | acquire
  | fetch (q : String)
  | execute (q : String)
deriving DecidableEq

/-- Errors raised by the embedded Python code: `ValueError(msg)` from the
guards, the connection failure re-raised by `initialize_db_pool`, and the
`IndexError` of `result.split()[-1]` on an empty status string. -/
inductive PyErr
  | valueError (msg : String)
  | connectionError
  | indexError
deriving DecidableEq

/-- The database oracle standing for PostgreSQL: whether `asyncpg.create_pool`
succeeds, the rows any query fetches, and the status string `conn.execute`
returns for a command. -/
structure Db where
  createPoolOk : Bool
  fetch : String → List Row
  fetchParam : String → String → List Row
  executeStatus : String → String

/-- The process-wide mutable state of src/mcp_server.py: the global `db_pool`
(`none` models Python `None`; a created pool is identified by a number), plus
a history counter of how many pools were ever successfully created, used to
state the at-most-one-pool invariant. -/
structure ServerState where
  pool : Option Nat
  poolsCreated : Nat
deriving DecidableEq

/-- src/mcp_server.py lines 14-39, `initialize_db_pool`: return immediately
when the global pool exists; otherwise attempt `asyncpg.create_pool`, storing
the pool on success and re-raising the failure (leaving `db_pool` unset) on
error. -/
def initialize_db_pool (db : Db) (s : ServerState) :
    Except PyErr ServerState × List Ev :=
  match s.pool with
  | some _ => (Except.ok s, [])
  | none =>
    if db.createPoolOk then
      (Except.ok { pool := some s.poolsCreated, poolsCreated := s.poolsCreated + 1 },
        [Ev.poolCreate])
    else
      (Except.error PyErr.connectionError, [Ev.poolCreate])

/-- src/mcp_server.py lines 42-50, `list_tables`: initialize the pool, fetch
the catalog query, and return the first column of every row. -/
def list_tables (db : Db) (s : ServerState) :
    Except PyErr (List String) × ServerState × List Ev :=
  match initialize_db_pool db s with
  | (Except.error e, evs) => (Except.error e, s, evs)
  | (Except.ok s1, evs) =>
    let query := "SELECT table_name FROM information_schema.tables WHERE table_schema=\x27public\x27 ORDER BY table_name;"
    (Except.ok ((db.fetch query).map fun r => (r.headD ("", "")).2), s1,
      evs ++ [Ev.acquire, Ev.fetch query])

/-- src/mcp_server.py lines 52-65, `describe_table`: initialize the pool and
fetch the catalog columns query; the table name is passed as the bound
parameter `$1`, so the submitted query text does not depend on it. -/
def describe_table (db : Db) (s : ServerState) (table_name : String) :
    Except PyErr (List Row) × ServerState × List Ev :=
  match initialize_db_pool db s with
  | (Except.error e, evs) => (Except.error e, s, evs)
  | (Except.ok s1, evs) =>
    let query := "\n        SELECT column_name, data_type, is_nullable, column_default\n        FROM information_schema.columns\n        WHERE table_name=$1\n        ORDER BY ordinal_position;\n    "
    (Except.ok (db.fetchParam query table_name), s1, evs ++ [Ev.acquire, Ev.fetch query])

/-- src/mcp_server.py lines 67-78, `run_select`: initialize the pool, raise
`ValueError` when the trimmed lowercased query does not contain "select",
otherwise acquire a connection, fetch, and return the rows as dictionaries. -/
def run_select (db : Db) (s : ServerState) (query : String) :
    Except PyErr (List Row) × ServerState × List Ev :=
  match initialize_db_pool db s with
  | (Except.error e, evs) => (Except.error e, s, evs)
  | (Except.ok s1, evs) =>
    if selectGuard query = false then
      (Except.error (PyErr.valueError "Only SELECT queries allowed for data retrieval."),
        s1, evs)
    else
      (Except.ok (db.fetch query), s1, evs ++ [Ev.acquire, Ev.fetch query])

/-- src/mcp_server.py lines 80-98, `run_sql`: initialize the pool, raise
`ValueError` when the lowercased query holds a blocked DDL token, raise
`ValueError` when the trimmed lowercased query starts with "select",
otherwise execute the command and report the last word of the status string
as the affected row count. -/
def run_sql (db : Db) (s : ServerState) (query : String) :
    Except PyErr String × ServerState × List Ev :=
  match initialize_db_pool db s with
  | (Except.error e, evs) => (Except.error e, s, evs)
  | (Except.ok s1, evs) =>
    if hasBlockedToken query then
      (Except.error (PyErr.valueError "DDL commands not allowed."), s1, evs)
    else if startsSelectTrimmed query then
      (Except.error (PyErr.valueError "Use run_select() for SELECT queries."), s1, evs)
    else
      match (splitWords (db.executeStatus query).data).getLast? with
      | none =>
        (Except.error PyErr.indexError, s1, evs ++ [Ev.acquire, Ev.execute query])
      | some w =>
        (Except.ok ("Executed successfully. Rows affected: " ++ String.mk w), s1,
          evs ++ [Ev.acquire, Ev.execute query])

/-- src/mcp_server.py lines 100-107, `preview_table`: initialize the pool,
interpolate the table argument verbatim into the query text, and fetch. -/
def preview_table (db : Db) (s : ServerState) (table : String) :
    Except PyErr (List Row) × ServerState × List Ev :=
  match initialize_db_pool db s with
  | (Except.error e, evs) => (Except.error e, s, evs)
  | (Except.ok s1, evs) =>
    let query := "SELECT * FROM " ++ table ++ " LIMIT 10"
    (Except.ok (db.fetch query), s1, evs ++ [Ev.acquire, Ev.fetch query])

/-- The FastAPI `HTTPException` raised by `check_auth` in src/app.py: status
code, detail message, and the optional `WWW-Authenticate` header value. -/
structure HTTPEx where
  statusCode : Nat
  detail : String
  wwwAuthenticate : Option String
deriving DecidableEq

/-- Python truthiness of `os.getenv("MCP_API_KEY")` as used by
`if not expected_key`: true when the variable is unset or the empty string. -/
def pyFalsy : Option String → Bool
  | none => true
  | some s => s == ""

/-- src/app.py lines 22-44, `check_auth`: raise a 500 `HTTPException` when the
server-side key is missing, raise a 401 with a `WWW-Authenticate: Bearer`
header when the presented bearer token differs from the key, and return
`True` otherwise. -/
def check_auth (apiKey : Option String) (token : String) : Except HTTPEx Bool :=
  if pyFalsy apiKey then
    Except.error ⟨500, "Server Misconfiguration: Authentication key missing.", none⟩
  else if token != apiKey.getD "" then
    Except.error ⟨401, "Unauthorized access. Invalid MCP_API_KEY.", some "Bearer"⟩
  else
    Except.ok true

/-- The startup steps of src/app.py `start_server`, in the order they run:
the awaited pool initialization (with its outcome), the construction of the
streamable HTTP transport, and the uvicorn server starting to serve on its
port. -/
inductive SrvEv
  | poolInit (ok : Bool)
  | transportBuilt
  | serveStarted (port : Nat)
deriving DecidableEq

/-- src/app.py lines 48-85, `start_server`: await `initialize_db_pool` first;
when it raises, the exception propagates and nothing else runs; when it
succeeds, read the PORT variable (default 8080), build the transport, and
start the uvicorn server. -/
def start_server (db : Db) (s : ServerState) (envPort : Option Nat) :
    Except PyErr ServerState × List SrvEv :=
  match initialize_db_pool db s with
  | (Except.error e, _) => (Except.error e, [SrvEv.poolInit false])
  | (Except.ok s1, _) =>
    let port := envPort.getD 8080
    (Except.ok s1, [SrvEv.poolInit true, SrvEv.transportBuilt, SrvEv.serveStarted port])

/-- The five database operations of src/mcp_server.py, as abstract requests
for the pool-lifecycle invariant. -/
inductive Op
  | listTablesOp
  | describeTableOp (t : String)
  | runSelectOp (q : String)
  | runSqlOp (q : String)
  | previewTableOp (t : String)

/-- The server state an operation leaves behind. -/
def stepOp (db : Db) (s : ServerState) : Op → ServerState
  | Op.listTablesOp => (list_tables db s).2.1
  | Op.describeTableOp t => (describe_table db s t).2.1
  | Op.runSelectOp q => (run_select db s q).2.1
  | Op.runSqlOp q => (run_sql db s q).2.1
  | Op.previewTableOp t => (preview_table db s t).2.1

/-- Run a sequence of operations, each against the database environment seen
at its own call time. -/
def runOps : List (Db × Op) → ServerState → ServerState
  | [], s => s
  | (db, op) :: rest, s => runOps rest (stepOp db s op)

/-- The state at process start: `db_pool = None`, no pool ever created. -/
def initState : ServerState := { pool := none, poolsCreated := 0 }

/-- The pool-lifecycle invariant: at most one pool has ever been created, and
none has been while the global is still unset. -/
def poolInv (s : ServerState) : Prop :=
  s.poolsCreated ≤ 1 ∧ (s.pool = none → s.poolsCreated = 0)

/-- The state `initialize_db_pool` leaves behind: its new state on success,
the caller's unchanged state when it raises. -/
def initResState (db : Db) (s : ServerState) : ServerState :=
  match (initialize_db_pool db s).1 with
  | Except.ok s1 => s1
  | Except.error _ => s

/-- Every operation's final state is exactly the state `initialize_db_pool`
leaves: no operation creates a pool through any other path. -/
theorem stepOp_eq_initResState (db : Db) (s : ServerState) (op : Op) :
    stepOp db s op = initResState db s := by
  cases op <;> (
    rcases hr : initialize_db_pool db s with ⟨res, evs⟩
    cases res <;>
      simp only [stepOp, list_tables, describe_table, run_select, run_sql,
        preview_table, initResState, hr] <;>
      (repeat' split) <;> rfl)

/-- `initialize_db_pool` preserves the pool-lifecycle invariant. -/
theorem initResState_poolInv (db : Db) (s : ServerState) (h : poolInv s) :
    poolInv (initResState db s) := by
  unfold initResState initialize_db_pool
  cases hp : s.pool with
  | some p => simpa using h
  | none =>
    have h0 : s.poolsCreated = 0 := h.2 hp
    cases hc : db.createPoolOk with
    | true =>
      refine ⟨?_, ?_⟩
      · simp [h0]
      · intro hcontra
        simp at hcontra
    | false => simpa using h

/-- Any sequence of operations preserves the pool-lifecycle invariant. -/
theorem runOps_poolInv (ops : List (Db × Op)) (s : ServerState) (h : poolInv s) :
    poolInv (runOps ops s) := by
  induction ops generalizing s with
  | nil => exact h
  | cons hd tl ih =>
    match hd with
    | (db, op) =>
      have hstep : poolInv (stepOp db s op) := by
        rw [stepOp_eq_initResState]
        exact initResState_poolInv db s h
      exact ih (stepOp db s op) hstep

/-- A reachable database environment: the pool can be created, every query
fetches no rows, and every command reports the status string "UPDATE 1". -/
def dbUp : Db where
  createPoolOk := true
  fetch := fun _ => []
  fetchParam := fun _ _ => []
  executeStatus := fun _ => "UPDATE 1"

/-- An unreachable database environment: pool creation fails. -/
def dbDown : Db where
  createPoolOk := false
  fetch := fun _ => []
  fetchParam := fun _ _ => []
  executeStatus := fun _ => ""

/-- A state in which the pool has already been created. -/
def sReady : ServerState := { pool := some 0, poolsCreated := 1 }

/-- Claim C1: for every SQL string containing "drop", "alter", "truncate" or
"create" as a substring of its lowercased form, `run_sql` raises the
ForbiddenStatement error `ValueError("DDL commands not allowed.")`, whatever
else the string holds (in particular even when it also starts with "select",
so the DDL check precedes the starts-with-select check), and no connection is
acquired and no statement executed on this rejection: at most the pool-create
step of `initialize_db_pool` appears in the trace. -/
theorem claim_C1 (db : Db) (s : ServerState) (query : String)
    (hready : s.pool.isSome = true ∨ db.createPoolOk = true)
    (hddl : ∃ t ∈ blocked, t.data <:+: pyLower query.data) :
    (run_sql db s query).1 = Except.error (PyErr.valueError "DDL commands not allowed.") ∧
    ∀ ev ∈ (run_sql db s query).2.2, ev = Ev.poolCreate := by
  have hb : hasBlockedToken query = true := by
    unfold hasBlockedToken
    rw [List.any_eq_true]
    obtain ⟨t, ht, hinf⟩ := hddl
    exact ⟨t, ht, decide_eq_true hinf⟩
  unfold run_sql initialize_db_pool
  cases hp : s.pool with
  | some p => simp [hb]
  | none =>
    cases hc : db.createPoolOk with
    | true => simp [hb]
    | false =>
      rcases hready with h1 | h1
      · rw [hp] at h1
        simp at h1
      · rw [hc] at h1
        simp at h1

/-- Witness for claim C1 at the concrete input "SELECT * FROM created_at",
which both holds the token "create" (inside "created_at") and starts with
"select": the DDL rejection wins. -/
theorem claim_C1_witness :
    (run_sql dbUp sReady "SELECT * FROM created_at").1 =
      Except.error (PyErr.valueError "DDL commands not allowed.") ∧
    ∀ ev ∈ (run_sql dbUp sReady "SELECT * FROM created_at").2.2, ev = Ev.poolCreate :=
  claim_C1 dbUp sReady "SELECT * FROM created_at" (Or.inl (by decide))
    ⟨"create", by decide, by decide⟩

/-- Counterexample to claim C2: the statement "select 1; drop table users"
contains the forbidden token "drop", yet `run_select` does not refuse it: the
read path checks only for the substring "select", so it acquires a connection
and executes the statement, returning its rows. -/
theorem claim_C2_counterexample :
    (∃ t ∈ blocked, t.data <:+: pyLower ("select 1; drop table users").data) ∧
    (run_select dbUp sReady "select 1; drop table users").1 =
      Except.ok (dbUp.fetch "select 1; drop table users") ∧
    Ev.fetch "select 1; drop table users" ∈
      (run_select dbUp sReady "select 1; drop table users").2.2 := by
  refine ⟨⟨"drop", by decide, by decide⟩, rfl, by decide⟩

/-- Claim C2 as amended: `run_select` refuses a statement containing a
forbidden DDL token only by virtue of the "select" substring test — it
refuses exactly the DDL-containing statements that do not also contain
"select" (case-insensitively); there is no DDL precedence on the read path. -/
theorem claim_C2 (db : Db) (s : ServerState) (query : String)
    (hready : s.pool.isSome = true ∨ db.createPoolOk = true)
    (_hddl : ∃ t ∈ blocked, t.data <:+: pyLower query.data)
    (hnosel : ¬ "select".data <:+: pyLower query.data) :
    (run_select db s query).1 =
      Except.error (PyErr.valueError "Only SELECT queries allowed for data retrieval.") ∧
    ∀ ev ∈ (run_select db s query).2.2, ev = Ev.poolCreate := by
  have hg : selectGuard query = false := by
    cases h : selectGuard query
    · rfl
    · exact absurd ((selectGuard_iff query).mp h) hnosel
  unfold run_select initialize_db_pool
  cases hp : s.pool with
  | some p => simp [hg]
  | none =>
    cases hc : db.createPoolOk with
    | true => simp [hg]
    | false =>
      rcases hready with h1 | h1
      · rw [hp] at h1
        simp at h1
      · rw [hc] at h1
        simp at h1

/-- Witness for the amended claim C2 at "drop table users", which holds a
forbidden token and no "select". -/
theorem claim_C2_witness :
    (run_select dbUp sReady "drop table users").1 =
      Except.error (PyErr.valueError "Only SELECT queries allowed for data retrieval.") ∧
    ∀ ev ∈ (run_select dbUp sReady "drop table users").2.2, ev = Ev.poolCreate :=
  claim_C2 dbUp sReady "drop table users" (Or.inl (by decide))
    ⟨"drop", by decide, by decide⟩ (by decide)

/-- Claim C3: when the pool is reachable, `run_select` raises the
IntentMismatch error `ValueError("Only SELECT queries allowed for data
retrieval.")` exactly when the lowercased input does not contain "select" as
a substring; and every query containing "select" anywhere (case-insensitive)
is admitted, executed, and its rows returned as column-name-to-value
mappings. -/
theorem claim_C3 (db : Db) (s : ServerState) (query : String)
    (hready : s.pool.isSome = true ∨ db.createPoolOk = true) :
    ((run_select db s query).1 =
        Except.error (PyErr.valueError "Only SELECT queries allowed for data retrieval.") ↔
      ¬ "select".data <:+: pyLower query.data) ∧
    ("select".data <:+: pyLower query.data →
      (run_select db s query).1 = Except.ok (db.fetch query) ∧
        Ev.fetch query ∈ (run_select db s query).2.2) := by
  cases hg : selectGuard query with
  | false =>
    have hn : ¬ "select".data <:+: pyLower query.data := by
      intro h
      rw [(selectGuard_iff query).mpr h] at hg
      exact Bool.true_eq_false.mp hg
    unfold run_select initialize_db_pool
    cases hp : s.pool with
    | some p => simp [hg, hn]
    | none =>
      cases hc : db.createPoolOk with
      | true => simp [hg, hn]
      | false =>
        rcases hready with h1 | h1
        · rw [hp] at h1
          simp at h1
        · rw [hc] at h1
          simp at h1
  | true =>
    have hy : "select".data <:+: pyLower query.data := (selectGuard_iff query).mp hg
    unfold run_select initialize_db_pool
    cases hp : s.pool with
    | some p => simp [hg, hy]
    | none =>
      cases hc : db.createPoolOk with
      | true => simp [hg, hy]
      | false =>
        rcases hready with h1 | h1
        · rw [hp] at h1
          simp at h1
        · rw [hc] at h1
          simp at h1

/-- Witness for claim C3 at the admitted query "SELECT 1" on a ready pool. -/
theorem claim_C3_witness :
    (((run_select dbUp sReady "SELECT 1").1 =
        Except.error (PyErr.valueError "Only SELECT queries allowed for data retrieval.") ↔
      ¬ "select".data <:+: pyLower ("SELECT 1").data) ∧
    ("select".data <:+: pyLower ("SELECT 1").data →
      (run_select dbUp sReady "SELECT 1").1 = Except.ok (dbUp.fetch "SELECT 1") ∧
        Ev.fetch "SELECT 1" ∈ (run_select dbUp sReady "SELECT 1").2.2)) ∧
    "select".data <:+: pyLower ("SELECT 1").data :=
  ⟨claim_C3 dbUp sReady "SELECT 1" (Or.inl (by decide)), by decide⟩

/-- Claim C4: a string with no forbidden DDL token whose trimmed lowercased
form starts with "select" makes `run_sql` raise the IntentMismatch error
`ValueError("Use run_select() for SELECT queries.")`, and the statement is
not executed: at most the pool-create step appears in the trace. -/
theorem claim_C4 (db : Db) (s : ServerState) (query : String)
    (hready : s.pool.isSome = true ∨ db.createPoolOk = true)
    (hnoddl : ∀ t ∈ blocked, ¬ t.data <:+: pyLower query.data)
    (hsel : "select".data <+: pyLower (stripList query.data)) :
    (run_sql db s query).1 =
      Except.error (PyErr.valueError "Use run_select() for SELECT queries.") ∧
    ∀ ev ∈ (run_sql db s query).2.2, ev = Ev.poolCreate := by
  have hb : hasBlockedToken query = false := by
    unfold hasBlockedToken
    rw [List.any_eq_false]
    intro t ht
    simp only [decide_eq_true_eq]
    exact hnoddl t ht
  have hs : startsSelectTrimmed query = true := by
    unfold startsSelectTrimmed
    exact decide_eq_true hsel
  unfold run_sql initialize_db_pool
  cases hp : s.pool with
  | some p => simp [hb, hs]
  | none =>
    cases hc : db.createPoolOk with
    | true => simp [hb, hs]
    | false =>
      rcases hready with h1 | h1
      · rw [hp] at h1
        simp at h1
      · rw [hc] at h1
        simp at h1

/-- Witness for claim C4 at "  SELECT 1", which holds no forbidden token and
starts (after trimming) with "select". -/
theorem claim_C4_witness :
    (run_sql dbUp sReady "  SELECT 1").1 =
      Except.error (PyErr.valueError "Use run_select() for SELECT queries.") ∧
    ∀ ev ∈ (run_sql dbUp sReady "  SELECT 1").2.2, ev = Ev.poolCreate :=
  claim_C4 dbUp sReady "  SELECT 1" (Or.inl (by decide)) (by decide) (by decide)

/-- The spec's own example of the overlap of the two entry points: an UPDATE
whose string literal mentions "select". -/
def overlapQ : String := "UPDATE t SET note = \x27please select carefully\x27"

/-- Claim C5: the admission predicates of the two entry points overlap: the
statement `overlapQ` holds no forbidden token and does not start with
"select", so `run_sql` admits and executes it as a write, while the same
string also passes `run_select`'s contains-"select" test and is executed by
the read path too. -/
theorem claim_C5 :
    hasBlockedToken overlapQ = false ∧
    startsSelectTrimmed overlapQ = false ∧
    (run_sql dbUp sReady overlapQ).1 = Except.ok "Executed successfully. Rows affected: 1" ∧
    Ev.execute overlapQ ∈ (run_sql dbUp sReady overlapQ).2.2 ∧
    selectGuard overlapQ = true ∧
    (run_select dbUp sReady overlapQ).1 = Except.ok (dbUp.fetch overlapQ) ∧
    Ev.fetch overlapQ ∈ (run_select dbUp sReady overlapQ).2.2 := by
  refine ⟨by decide, by decide, rfl, by decide, by decide, rfl, by decide⟩

/-- Claim C6: `initialize_db_pool` is idempotent — whenever a pool already
exists it returns at once, unchanged state, no side effect — and since every
operation (list_tables, describe_table, run_select, run_sql, preview_table)
reaches the pool only through `initialize_db_pool`, any sequence of
operations from process start creates at most one pool instance. -/
theorem claim_C6 :
    (∀ (db : Db) (s : ServerState), s.pool.isSome = true →
      initialize_db_pool db s = (Except.ok s, [])) ∧
    (∀ ops : List (Db × Op), (runOps ops initState).poolsCreated ≤ 1) := by
  constructor
  · intro db s h
    unfold initialize_db_pool
    cases hp : s.pool with
    | some p => rfl
    | none =>
      rw [hp] at h
      simp at h
  · intro ops
    have hinv : poolInv initState := ⟨Nat.zero_le 1, fun _ => rfl⟩
    exact (runOps_poolInv ops initState hinv).1

/-- Witness for claim C6: a second call on a ready state returns immediately,
and a concrete sequence of operations from process start creates at most one
pool. -/
theorem claim_C6_witness :
    initialize_db_pool dbUp sReady = (Except.ok sReady, []) ∧
    (runOps [(dbUp, Op.listTablesOp), (dbUp, Op.runSelectOp "SELECT 1"),
        (dbUp, Op.runSqlOp "UPDATE t SET x = 2"), (dbUp, Op.previewTableOp "users")]
      initState).poolsCreated ≤ 1 :=
  ⟨claim_C6.1 dbUp sReady (by decide), claim_C6.2 _⟩

/-- Claim C7: `start_server` awaits `initialize_db_pool` before building the
transport and starting the HTTP server; if pool creation fails the exception
propagates and the server never starts (neither the transport construction
nor the serve step appears), and whenever the serve step happens the trace
shows the successful pool initialization strictly before it. -/
theorem claim_C7 (db : Db) (s : ServerState) (p : Option Nat) :
    (s.pool = none → db.createPoolOk = false →
      (start_server db s p).1 = Except.error PyErr.connectionError ∧
      (∀ n, SrvEv.serveStarted n ∉ (start_server db s p).2) ∧
      SrvEv.transportBuilt ∉ (start_server db s p).2) ∧
    (∀ n, SrvEv.serveStarted n ∈ (start_server db s p).2 →
      (start_server db s p).2 =
        [SrvEv.poolInit true, SrvEv.transportBuilt, SrvEv.serveStarted (p.getD 8080)]) := by
  constructor
  · intro hp hc
    unfold start_server initialize_db_pool
    rw [hp, hc]
    exact ⟨rfl, fun n => by simp, by simp⟩
  · intro n hmem
    unfold start_server initialize_db_pool at hmem ⊢
    cases hp : s.pool with
    | some q => rfl
    | none =>
      cases hc : db.createPoolOk with
      | true => rfl
      | false =>
        simp [hp, hc] at hmem

/-- Witness for claim C7: with an unreachable database the startup fails
before serving; with a ready pool the serve step follows the successful pool
initialization. -/
theorem claim_C7_witness :
    ((start_server dbDown initState none).1 = Except.error PyErr.connectionError ∧
      (∀ n, SrvEv.serveStarted n ∉ (start_server dbDown initState none).2) ∧
      SrvEv.transportBuilt ∉ (start_server dbDown initState none).2) ∧
    (start_server dbUp sReady (some 9000)).2 =
      [SrvEv.poolInit true, SrvEv.transportBuilt, SrvEv.serveStarted 9000] :=
  ⟨(claim_C7 dbDown initState none).1 rfl rfl,
    (claim_C7 dbUp sReady (some 9000)).2 9000 (by decide)⟩

/-- Claim C8: `check_auth` fails with status 500 whenever the server-side
secret is missing (unset or empty, the falsy test of the code); otherwise it
fails with status 401 and a `WWW-Authenticate: Bearer` header whenever the
presented bearer token differs from the configured secret, and succeeds
exactly when the token equals the secret. -/
theorem claim_C8 (apiKey : Option String) (token : String) :
    (pyFalsy apiKey = true →
      check_auth apiKey token =
        Except.error ⟨500, "Server Misconfiguration: Authentication key missing.", none⟩) ∧
    (∀ k, apiKey = some k → pyFalsy apiKey = false →
      ((check_auth apiKey token = Except.ok true ↔ token = k) ∧
        (token ≠ k →
          check_auth apiKey token =
            Except.error ⟨401, "Unauthorized access. Invalid MCP_API_KEY.", some "Bearer"⟩))) := by
  constructor
  · intro h
    unfold check_auth
    rw [h]
    rfl
  · intro k hk hfalsy
    subst hk
    by_cases heq : token = k
    · subst heq
      refine ⟨⟨fun _ => rfl, fun _ => ?_⟩, fun hne => absurd rfl hne⟩
      unfold check_auth
      rw [hfalsy]
      simp
    · have hbne : (token != (some k).getD "") = true := by
        simp [heq]
      refine ⟨⟨fun hok => ?_, fun habs => absurd habs heq⟩, fun _ => ?_⟩
      · unfold check_auth at hok
        rw [hfalsy] at hok
        simp only [Bool.false_eq_true, if_false, hbne, if_true] at hok
        cases hok
      · unfold check_auth
        rw [hfalsy]
        simp only [Bool.false_eq_true, if_false, hbne, if_true]

/-- Witness for claim C8: a missing key yields 500; with the key "sekret",
the matching token succeeds and a wrong token yields 401 with the Bearer
challenge. -/
theorem claim_C8_witness :
    check_auth none "anything" =
      Except.error ⟨500, "Server Misconfiguration: Authentication key missing.", none⟩ ∧
    check_auth (some "sekret") "sekret" = Except.ok true ∧
    check_auth (some "sekret") "wrong" =
      Except.error ⟨401, "Unauthorized access. Invalid MCP_API_KEY.", some "Bearer"⟩ :=
  ⟨(claim_C8 none "anything").1 rfl,
    (((claim_C8 (some "sekret") "sekret").2 "sekret" rfl (by decide)).1).mpr rfl,
    ((claim_C8 (some "sekret") "wrong").2 "sekret" rfl (by decide)).2 (by decide)⟩

/-- Claim C9: for every table argument, `preview_table` submits to the
database exactly the text "SELECT * FROM " ++ table ++ " LIMIT 10" — the
argument interpolated verbatim, with no escaping, quoting, validation or
allow-listing — and returns the fetched rows as column-name-to-value
mappings. -/
theorem claim_C9 (db : Db) (s : ServerState) (table : String)
    (hready : s.pool.isSome = true ∨ db.createPoolOk = true) :
    (preview_table db s table).1 =
      Except.ok (db.fetch ("SELECT * FROM " ++ table ++ " LIMIT 10")) ∧
    Ev.fetch ("SELECT * FROM " ++ table ++ " LIMIT 10") ∈ (preview_table db s table).2.2 := by
  unfold preview_table initialize_db_pool
  cases hp : s.pool with
  | some p => simp
  | none =>
    cases hc : db.createPoolOk with
    | true => simp
    | false =>
      rcases hready with h1 | h1
      · rw [hp] at h1
        simp at h1
      · rw [hc] at h1
        simp at h1

/-- Witness for claim C9 at a table argument that is itself an injection
payload, showing it is passed through verbatim. -/
theorem claim_C9_witness :
    (preview_table dbUp sReady "users; DROP TABLE users").1 =
      Except.ok (dbUp.fetch ("SELECT * FROM " ++ "users; DROP TABLE users" ++ " LIMIT 10")) ∧
    Ev.fetch ("SELECT * FROM " ++ "users; DROP TABLE users" ++ " LIMIT 10") ∈
      (preview_table dbUp sReady "users; DROP TABLE users").2.2 :=
  claim_C9 dbUp sReady "users; DROP TABLE users" (Or.inl (by decide))

/-- Claim C10: when pool creation fails in `initialize_db_pool`, the
exception propagates and the global pool stays unset — every operation run in
that state re-raises and leaves the state unchanged — and a subsequent call
attempts creation again (and succeeds when the database is back), rather than
treating a pool as ready. -/
theorem claim_C10 (db db2 : Db) (s : ServerState)
    (hnone : s.pool = none) (hfail : db.createPoolOk = false) :
    initialize_db_pool db s = (Except.error PyErr.connectionError, [Ev.poolCreate]) ∧
    (∀ q, (run_select db s q).1 = Except.error PyErr.connectionError ∧
      (run_select db s q).2.1 = s) ∧
    (db2.createPoolOk = true →
      initialize_db_pool db2 s =
        (Except.ok ⟨some s.poolsCreated, s.poolsCreated + 1⟩, [Ev.poolCreate])) := by
  have hinit : initialize_db_pool db s = (Except.error PyErr.connectionError, [Ev.poolCreate]) := by
    unfold initialize_db_pool
    rw [hnone, hfail]
    rfl
  refine ⟨hinit, ?_, ?_⟩
  · intro q
    unfold run_select
    rw [hinit]
    exact ⟨rfl, rfl⟩
  · intro hok
    unfold initialize_db_pool
    rw [hnone, hok]
    rfl

/-- Witness for claim C10: a failed first call from the start state leaves
the pool unset, `run_select` re-raises in that state, and a retry against a
reachable database creates the pool. -/
theorem claim_C10_witness :
    initialize_db_pool dbDown initState =
      (Except.error PyErr.connectionError, [Ev.poolCreate]) ∧
    ((run_select dbDown initState "SELECT 1").1 = Except.error PyErr.connectionError ∧
      (run_select dbDown initState "SELECT 1").2.1 = initState) ∧
    initialize_db_pool dbUp initState =
      (Except.ok ⟨some initState.poolsCreated, initState.poolsCreated + 1⟩, [Ev.poolCreate]) :=
  ⟨(claim_C10 dbDown dbUp initState rfl rfl).1,
    (claim_C10 dbDown dbUp initState rfl rfl).2.1 "SELECT 1",
    (claim_C10 dbDown dbUp initState rfl rfl).2.2 rfl⟩

end MCPPostgres
